import Mathlib

/-!
Verification of the pendo-cli specification against a shallow embedding of the
source. The embedding models, in order: Python JSON-like values and the small
pieces of Python semantics the code relies on (truthiness, `dict.get`, `str`),
the API client (`pendo_cli/api/client.py`), the configuration resolver
(`pendo_cli/config.py`), the segment and query command handlers
(`pendo_cli/commands/segment.py`, `pendo_cli/commands/query.py`), and the
entry-point exit-code mapping (`pendo_cli/cli.py`). HTTP traffic is abstracted
as an oracle value describing the single round trip an operation performs;
everything after the oracle is a literal translation of the Python.
-/

namespace PendoCLI

/-- Values of the Python/JSON data domain handled by the CLI: None, bool, int,
str, list and dict (dicts are association lists in insertion order, assumed
duplicate-free as produced by JSON parsing). -/
inductive Json where
  | null
  | bool (b : Bool)
  | num (n : Int)
  | str (s : String)
  | arr (elts : List Json)
  | obj (kvs : List (String × Json))
deriving Repr

/-- Python truthiness (`bool(v)`) of a JSON-domain value. -/
def pyTruthy : Json → Bool
  | .null => false
  | .bool b => b
  | .num n => n != 0
  | .str s => s != ""
  | .arr elts => !elts.isEmpty
  | .obj kvs => !kvs.isEmpty

/-- Python truthiness of an optional string (None and the empty string are
falsy); used for `if not x` tests on argument attributes and the API key. -/
def pyTruthyStr : Option String → Bool
  | none => false
  | some s => s != ""

/-- Lookup of a key in a dict body, as association-list search. -/
def lookup? (kvs : List (String × Json)) (key : String) : Option Json :=
  match kvs.find? (fun p => p.1 == key) with
  | some p => some p.2
  | none => none

/-- Python `d.get(key, default)` on a dict body. -/
def lookupD (kvs : List (String × Json)) (key : String) (dflt : Json) : Json :=
  match lookup? kvs key with
  | some v => v
  | none => dflt

/-- Escape of one character inside a Python string repr with quote
character `q`. -/
def pyReprChar (q : Char) (c : Char) : String :=
  if c = '\\' then "\\\\"
  else if c = q then "\\" ++ q.toString
  else if c = '\n' then "\\n"
  else if c = '\r' then "\\r"
  else if c = '\t' then "\\t"
  else c.toString

/-- Python `repr` of a string: single-quoted unless the string holds a single
quote and no double quote. -/
def pyReprStr (s : String) : String :=
  let q : Char := if s.contains '\'' && !(s.contains '"') then '"' else '\''
  q.toString ++ String.join (s.data.map (pyReprChar q)) ++ q.toString

mutual

/-- Python `repr` of a JSON-domain value. -/
def pyRepr : Json → String
  | .null => "None"
  | .bool true => "True"
  | .bool false => "False"
  | .num n => toString n
  | .str s => pyReprStr s
  | .arr elts => "[" ++ pyReprElts elts ++ "]"
  | .obj kvs => "\x7b" ++ pyReprKvs kvs ++ "\x7d"

/-- Comma-separated reprs of list elements. -/
def pyReprElts : List Json → String
  | [] => ""
  | [v] => pyRepr v
  | v :: rest => pyRepr v ++ ", " ++ pyReprElts rest

/-- Comma-separated `key: value` reprs of dict entries. -/
def pyReprKvs : List (String × Json) → String
  | [] => ""
  | [(k, v)] => pyReprStr k ++ ": " ++ pyRepr v
  | (k, v) :: rest => pyReprStr k ++ ": " ++ pyRepr v ++ ", " ++ pyReprKvs rest

end

/-- Python `str` of a JSON-domain value (`str` of a string is the string
itself, everything else matches `repr`); this is what f-string interpolation
and `print` produce. -/
def pyStr : Json → String
  | .str s => s
  | v => pyRepr v

/-- Python type name of a JSON-domain value, as it appears in runtime error
messages. -/
def pyTypeName : Json → String
  | .null => "NoneType"
  | .bool _ => "bool"
  | .num _ => "int"
  | .str _ => "str"
  | .arr _ => "list"
  | .obj _ => "dict"

/-- Message of the AttributeError raised by `v.get(...)` when `v` is not a
dict. -/
def noGetAttrMsg (v : Json) : String :=
  "\x27" ++ pyTypeName v ++ "\x27 object has no attribute \x27get\x27"

/-- Configuration record from `pendo_cli/api/models.py` (`PendoConfig`
dataclass), with the same field defaults. -/
structure PendoConfig where
  subscription_id : String
  app_id : String
  base_url : String := "https://app.pendo.io"
  timeout : Int := 30
  max_retries : Int := 3
  api_key : Option String := none
deriving Repr, DecidableEq

/-- Description of one HTTP request as issued by the client (method, URL,
optional JSON body, extra headers). -/
structure RequestSpec where
  method : String
  url : String
  body : Option Json := none
  headers : List (String × String) := []
deriving Repr

/-- Body of an HTTP response as seen by the normalization code: either valid
JSON (so `response.json()` succeeds with this value) or raw non-JSON text
(so `response.json()` raises and `response.text()` yields the string). -/
inductive RespBody where
  | json (v : Json)
  | raw (s : String)
deriving Repr

/-- Oracle describing the outcome of the single HTTP round trip an operation
performs: a response with a status code and body, an `aiohttp.ClientError`
with message `e`, or any other exception with message `e`. -/
inductive HttpOutcome where
  | response (status : Nat) (body : RespBody)
  | clientError (e : String)
  | unexpectedError (e : String)
deriving Repr

/-- Result envelope returned by every client operation: the `data` /
`errors` dict. `data` is `none` for Python None; `errors` is always a list
(elements are JSON-domain values because the aggregation error path can place
a non-string message field in it). -/
structure ResultEnv where
  data : Option Json
  errors : List Json
deriving Repr

/-- Record of one client operation run: the HTTP requests it issued (empty or
a single one) and the envelope it returned. -/
structure OpRun where
  requests : List RequestSpec
  result : ResultEnv
deriving Repr

namespace PendoClient

/-- Body normalization shared by all operations: parse as JSON; on parse
failure wrap non-empty text as a single-key dict, or use an empty dict. -/
def normalizeBody : RespBody → Json
  | .json v => v
  | .raw s => if s = "" then .obj [] else .obj [("text", .str s)]

/-- Embedding of `PendoClient._request`: one request with graceful error
handling. A response (any status) yields the normalized body with no errors;
any exception is converted to a `data = None` envelope carrying the stringified
exception. -/
def _request (outcome : HttpOutcome) : ResultEnv :=
  match outcome with
  | .response _ body => { data := some (normalizeBody body), errors := [] }
  | .clientError e => { data := none, errors := [.str e] }
  | .unexpectedError e => { data := none, errors := [.str e] }

/-- Embedding of `PendoClient.list_segments`. -/
def list_segments (cfg : PendoConfig) (outcome : HttpOutcome) : OpRun :=
  let req : RequestSpec :=
    { method := "GET",
      url := cfg.base_url ++ "/api/v1/subscription/" ++ cfg.subscription_id ++ "/segment" }
  { requests := [req], result := _request outcome }

/-- Embedding of `PendoClient.create_segment`. -/
def create_segment (cfg : PendoConfig) (segment_data : Json) (outcome : HttpOutcome) : OpRun :=
  let req : RequestSpec :=
    { method := "POST",
      url := cfg.base_url ++ "/api/v1/subscription/" ++ cfg.subscription_id ++ "/segment",
      body := some segment_data }
  { requests := [req], result := _request outcome }

/-- Embedding of `PendoClient.update_segment`. -/
def update_segment (cfg : PendoConfig) (segment_id : String) (segment_data : Json)
    (outcome : HttpOutcome) : OpRun :=
  let req : RequestSpec :=
    { method := "PUT",
      url := cfg.base_url ++ "/api/v1/subscription/" ++ cfg.subscription_id ++ "/segment/" ++ segment_id,
      body := some segment_data }
  { requests := [req], result := _request outcome }

/-- Embedding of `PendoClient.delete_segment`. -/
def delete_segment (cfg : PendoConfig) (segment_id : String) (outcome : HttpOutcome) : OpRun :=
  let req : RequestSpec :=
    { method := "DELETE",
      url := cfg.base_url ++ "/api/v1/subscription/" ++ cfg.subscription_id ++ "/segment/" ++ segment_id }
  { requests := [req], result := _request outcome }

/-- Embedding of `PendoClient.post_aggregation`. Fails locally when the API
key is absent or empty (Python falsy), issuing no request. Otherwise it issues
the request; a status of 400 or above yields a `data = None` envelope whose
single error is `data.get("message", data.get("text", str(data)))` — when the
normalized body is not a dict that attribute access raises AttributeError,
which the surrounding handler converts to a stringified-exception envelope.
Exceptions are converted exactly as in `_request`. -/
def post_aggregation (cfg : PendoConfig) (body : Json) (outcome : HttpOutcome) : OpRun :=
  if !pyTruthyStr cfg.api_key then
    { requests := [],
      result := { data := none, errors := [.str "PENDO_API_KEY required for aggregation"] } }
  else
    let req : RequestSpec :=
      { method := "POST", url := cfg.base_url ++ "/api/v1/aggregation", body := some body,
        headers := [("Content-Type", "application/json"),
                    ("X-Pendo-Integration-Key", cfg.api_key.getD "")] }
    match outcome with
    | .response status rb =>
      let d := normalizeBody rb
      if status ≥ 400 then
        match d with
        | .obj kvs =>
          let msg := lookupD kvs "message" (lookupD kvs "text" (.str (pyStr d)))
          { requests := [req], result := { data := none, errors := [msg] } }
        | _ =>
          { requests := [req],
            result := { data := none, errors := [.str (noGetAttrMsg d)] } }
      else
        { requests := [req], result := { data := some d, errors := [] } }
    | .clientError e =>
      { requests := [req], result := { data := none, errors := [.str e] } }
    | .unexpectedError e =>
      { requests := [req], result := { data := none, errors := [.str e] } }

end PendoClient

/-! Configuration resolver, from `pendo_cli/config.py`. -/

/-- Process environment, as a finite map from variable names to values. -/
abbrev Env := List (String × String)

/-- Python `os.getenv(key)`. -/
def getenvOpt (env : Env) (key : String) : Option String :=
  (env.find? (fun p => p.1 == key)).map (fun p => p.2)

/-- Python `os.getenv(key, dflt)`. -/
def getenv (env : Env) (key : String) (dflt : String) : String :=
  (getenvOpt env key).getD dflt

/-- Python `str.strip()` (leading and trailing whitespace removed). -/
def pyStrip (s : String) : String :=
  ⟨((s.data.dropWhile Char.isWhitespace).reverse.dropWhile Char.isWhitespace).reverse⟩

/-- Python `str.lower()` (sufficient for the ASCII names involved here). -/
def pyLower (s : String) : String :=
  ⟨s.data.map Char.toLower⟩

/-- Supported subscription names (`SUBSCRIPTION_NAMES` in `config.py`). -/
def SUBSCRIPTION_NAMES : List String := ["default", "roadmaps", "portfolios"]

/-- Exceptions `get_config` can raise: the explicit ValueError for an
unrecognized subscription name, or the ValueError raised by `int()` on a
malformed `PENDO_TIMEOUT` / `PENDO_MAX_RETRIES` value. -/
inductive PyError where
  | unknownSubscription (name : String)
  | invalidIntLiteral (lit : String)
deriving Repr, DecidableEq

/-- Message carried by each `PyError`; the unknown-subscription message joins
the allowed names, matching the f-string in `get_config`. -/
def PyError.message : PyError → String
  | .unknownSubscription n =>
    "Unknown subscription " ++ pyReprStr n ++ ". Use one of: "
      ++ String.intercalate ", " SUBSCRIPTION_NAMES
  | .invalidIntLiteral s =>
    "invalid literal for int() with base 10: " ++ pyReprStr s

/-- Numeric value of a list of decimal digit characters. -/
def digitsToNat? (cs : List Char) : Option Nat :=
  match cs with
  | [] => none
  | _ => if cs.all Char.isDigit then
      some (cs.foldl (fun a c => a * 10 + (c.toNat - 48)) 0)
    else none

/-- Sign handling of Python `int(s)`: an optional leading sign character
splits off a sign factor. -/
def pyIntSign : List Char → (Int × List Char)
  | '+' :: rest => (1, rest)
  | '-' :: rest => (-1, rest)
  | cs => (1, cs)

/-- Python `int(s)`: surrounding whitespace then an optional sign and a
nonempty digit string (digit-group underscores are not used by this program
and are not modelled). -/
def pyParseInt (s : String) : Except PyError Int :=
  match digitsToNat? (pyIntSign (pyStrip s).data).2 with
  | some n => .ok ((pyIntSign (pyStrip s).data).1 * (n : Int))
  | none => .error (.invalidIntLiteral s)

/-- Name normalization performed by `get_config` before validation:
`(subscription or os.getenv("PENDO_SUBSCRIPTION", "default")).strip().lower()`.
A falsy explicit argument (None or empty) falls back to the environment. -/
def resolveSubscriptionName (subscription : Option String) (env : Env) : String :=
  let raw :=
    match subscription with
    | some s => if s != "" then s else getenv env "PENDO_SUBSCRIPTION" "default"
    | none => getenv env "PENDO_SUBSCRIPTION" "default"
  pyLower (pyStrip raw)

/-- Embedding of `get_config`: validate the normalized name against
`SUBSCRIPTION_NAMES`, then assemble the `PendoConfig` from per-subscription
environment variables with hard-coded fallbacks. `.env` loading only mutates
the process environment and is abstracted into `env` itself. An `int()`
failure on the shared timeout or retry variables propagates as the
corresponding ValueError (explicit error matches model Python exception
propagation). -/
def get_config (subscription : Option String) (env : Env) : Except PyError PendoConfig :=
  let name := resolveSubscriptionName subscription env
  if name ∉ SUBSCRIPTION_NAMES then
    .error (.unknownSubscription name)
  else
    let base_url := getenv env "PENDO_BASE_URL" "https://app.pendo.io"
    match pyParseInt (getenv env "PENDO_TIMEOUT" "30") with
    | .error e => .error e
    | .ok timeout =>
      match pyParseInt (getenv env "PENDO_MAX_RETRIES" "3") with
      | .error e => .error e
      | .ok max_retries =>
        if name = "default" then
          .ok { subscription_id := getenv env "PENDO_SUBSCRIPTION_ID" "4598576627318784",
                app_id := getenv env "PENDO_APP_ID" "-323232",
                base_url := base_url, timeout := timeout, max_retries := max_retries,
                api_key := getenvOpt env "PENDO_API_KEY" }
        else if name = "roadmaps" then
          .ok { subscription_id := getenv env "PENDO_ROADMAPS_SUBSCRIPTION_ID" "6602363610660864",
                app_id := getenv env "PENDO_ROADMAPS_APP_ID" "5553517598146560",
                base_url := base_url, timeout := timeout, max_retries := max_retries,
                api_key := getenvOpt env "PENDO_ROADMAPS_API_KEY" }
        else
          .ok { subscription_id := getenv env "PENDO_PORTFOLIOS_SUBSCRIPTION_ID" "5878812817883136",
                app_id := getenv env "PENDO_PORTFOLIOS_APP_ID" "-323232",
                base_url := base_url, timeout := timeout, max_retries := max_retries,
                api_key := getenvOpt env "PENDO_PORTFOLIOS_API_KEY" }

/-! Command handlers share a small logging and outcome vocabulary. -/

/-- Logger levels used by the handlers. -/
inductive LogLevel where
  | info
  | warning
  | error
deriving Repr, DecidableEq, BEq

/-- One log record: level and rendered message. -/
structure LogLine where
  level : LogLevel
  msg : String
deriving Repr, DecidableEq, BEq

/-- Observable outcome of a handler that returned normally: its boolean
result, the log lines it emitted, and the lines it printed to stdout. -/
structure HandlerOutput where
  success : Bool
  logs : List LogLine
  prints : List String
deriving Repr

/-- Record of one handler run: the client HTTP requests issued, and either a
normal outcome or the message of an exception escaping the handler (the entry
point maps an escaped exception to exit code 1). -/
structure HandlerRun where
  calls : List RequestSpec
  output : Except String HandlerOutput
deriving Repr

/-- Boolean result of a handler run, false when an exception escaped. -/
def HandlerRun.succeeded (h : HandlerRun) : Bool :=
  match h.output with
  | .ok o => o.success
  | .error _ => false

/-- Messages of the warning-level log lines of a handler run. -/
def HandlerRun.warningMsgs (h : HandlerRun) : List String :=
  match h.output with
  | .ok o => (o.logs.filter (fun l => l.level == .warning)).map (fun l => l.msg)
  | .error _ => []

/-- Python `v.get(key, dflt)` in a position where `v` may not be a dict; a
non-dict receiver raises AttributeError. -/
def pyGet (v : Json) (key : String) (dflt : Json) : Except String Json :=
  match v with
  | .obj kvs => .ok (lookupD kvs key dflt)
  | _ => .error (noGetAttrMsg v)

/-- Python `v[0]` on the JSON domain (lists and strings are subscriptable,
everything else raises TypeError). -/
def pyGetItem0 : Json → Except String Json
  | .arr [] => .error "IndexError: list index out of range"
  | .arr (x :: _) => .ok x
  | .str s =>
    match s.data with
    | [] => .error "IndexError: string index out of range"
    | c :: _ => .ok (.str c.toString)
  | v => .error ("TypeError: \x27" ++ pyTypeName v ++ "\x27 object is not subscriptable")

/-! Segment command handlers, from `pendo_cli/commands/segment.py`. -/

/-- Parsed-argument attributes the segment handlers read; `none` models an
absent attribute as well as argparse None. -/
structure SegmentArgs where
  segment_id : Option String := none
  name : Option String := none
  description : Option String := none
deriving Repr

namespace SegmentCommand

/-- Rendering of one segment item in the list output: Python
`f"{segment.get('id', 'unknown')}: {segment.get('name', 'unnamed')}"`.
Iterated items that are not dicts raise AttributeError. -/
def segmentLine (v : Json) : Except String String :=
  match v with
  | .obj kvs =>
    .ok (pyStr (lookupD kvs "id" (.str "unknown")) ++ ": " ++ pyStr (lookupD kvs "name" (.str "unnamed")))
  | _ => .error (noGetAttrMsg v)

/-- Python `for segment in segments` over the JSON domain: lists iterate
elements, strings iterate characters, dicts iterate keys, everything else
raises TypeError. Each iterated value is rendered with `segmentLine`. -/
def segmentsLines : Json → Except String (List String)
  | .arr items => items.mapM segmentLine
  | .str s => (s.data.map (fun c => Json.str c.toString)).mapM segmentLine
  | .obj kvs => (kvs.map (fun p => Json.str p.1)).mapM segmentLine
  | v => .error ("TypeError: \x27" ++ pyTypeName v ++ "\x27 object is not iterable")

/-- Embedding of `SegmentCommand._list_segments`: list, unwrap a dict payload
to its nested results list, print one line per item. -/
def _list_segments (cfg : PendoConfig) (outcome : HttpOutcome) : HandlerRun :=
  let run := PendoClient.list_segments cfg outcome
  if !run.result.errors.isEmpty then
    let line : LogLine := ⟨.error, "Failed to list segments: " ++ pyStr (.arr run.result.errors)⟩
    { calls := run.requests,
      output := .ok { success := false, logs := [line], prints := [] } }
  else
    let segments := run.result.data.getD .null
    let segments :=
      match segments with
      | .obj kvs => lookupD kvs "results" (.arr [])
      | v => v
    match segmentsLines segments with
    | .ok lines =>
      { calls := run.requests,
        output := .ok { success := true, logs := [], prints := lines } }
    | .error e => { calls := run.requests, output := .error e }

/-- Partial update payload built by `_update_segment`: only attributes that
are present and truthy are included, name first. -/
def _update_segment_payload (args : SegmentArgs) : List (String × Json) :=
  let d0 : List (String × Json) := []
  let d1 :=
    match args.name with
    | some s => if s != "" then d0 ++ [("name", Json.str s)] else d0
    | none => d0
  match args.description with
  | some s => if s != "" then d1 ++ [("description", Json.str s)] else d1
  | none => d1

/-- Embedding of `SegmentCommand._update_segment`: require a truthy segment
id before any client call, then PUT the partial payload. -/
def _update_segment (cfg : PendoConfig) (args : SegmentArgs) (outcome : HttpOutcome) : HandlerRun :=
  if !pyTruthyStr args.segment_id then
    let out : HandlerOutput :=
      { success := false, logs := [⟨.error, "segment_id is required for update"⟩], prints := [] }
    { calls := [], output := .ok out }
  else
    let sid := args.segment_id.getD ""
    let run := PendoClient.update_segment cfg sid (.obj (_update_segment_payload args)) outcome
    if !run.result.errors.isEmpty then
      let line : LogLine := ⟨.error, "Failed to update segment: " ++ pyStr (.arr run.result.errors)⟩
      { calls := run.requests,
        output := .ok { success := false, logs := [line], prints := [] } }
    else
      { calls := run.requests,
        output := .ok { success := true, logs := [⟨.info, "Updated segment: " ++ sid⟩], prints := [] } }

/-- Embedding of `SegmentCommand._delete_segment`: require a truthy segment
id before any client call, then DELETE. -/
def _delete_segment (cfg : PendoConfig) (args : SegmentArgs) (outcome : HttpOutcome) : HandlerRun :=
  if !pyTruthyStr args.segment_id then
    let out : HandlerOutput :=
      { success := false, logs := [⟨.error, "segment_id is required for delete"⟩], prints := [] }
    { calls := [], output := .ok out }
  else
    let sid := args.segment_id.getD ""
    let run := PendoClient.delete_segment cfg sid outcome
    if !run.result.errors.isEmpty then
      let line : LogLine := ⟨.error, "Failed to delete segment: " ++ pyStr (.arr run.result.errors)⟩
      { calls := run.requests,
        output := .ok { success := false, logs := [line], prints := [] } }
    else
      { calls := run.requests,
        output := .ok { success := true, logs := [⟨.info, "Deleted segment: " ++ sid⟩], prints := [] } }

end SegmentCommand

/-! Query command handlers, from `pendo_cli/commands/query.py`. Dates are
modelled with the proleptic Gregorian ordinal (as `datetime.date.toordinal`),
and the current time as seconds since day-ordinal zero, so a date parsed at
midnight UTC sits at `ordinal * 86400` on the same axis. -/

/-- Gregorian leap-year test. -/
def isLeapYear (y : Nat) : Bool :=
  (y % 4 == 0 && y % 100 != 0) || y % 400 == 0

/-- Days in a month of a given year. -/
def daysInMonth (y m : Nat) : Nat :=
  if m = 2 then (if isLeapYear y then 29 else 28)
  else if m = 4 ∨ m = 6 ∨ m = 9 ∨ m = 11 then 30
  else 31

/-- Days in the given year before the first of month `m`. -/
def daysBeforeMonth (y m : Nat) : Nat :=
  (List.range (m - 1)).foldl (fun a i => a + daysInMonth y (i + 1)) 0

/-- Proleptic Gregorian ordinal of a calendar date (January 1 of year 1 is
day 1), as computed by Python `date.toordinal`. -/
def dateToOrdinal (y m d : Nat) : Nat :=
  (y - 1) * 365 + (y - 1) / 4 - (y - 1) / 100 + (y - 1) / 400 + daysBeforeMonth y m + d

/-- Embedding of `datetime.strptime(s, "%Y-%m-%d")`: exactly three
dash-separated all-digit fields — a four-digit year and one- or two-digit
month and day — forming a valid calendar date in years 1 to 9999. Returns the
date ordinal, or `none` where Python raises ValueError. -/
def parseYMD (s : String) : Option Nat :=
  match s.data.splitOn '-' with
  | [ys, ms, ds] =>
    match digitsToNat? ys, digitsToNat? ms, digitsToNat? ds with
    | some y, some m, some d =>
      if ys.length = 4 ∧ (ms.length = 1 ∨ ms.length = 2) ∧ (ds.length = 1 ∨ ds.length = 2)
          ∧ 1 ≤ y ∧ y ≤ 9999 ∧ 1 ≤ m ∧ m ≤ 12 ∧ 1 ≤ d ∧ d ≤ daysInMonth y m then
        some (dateToOrdinal y m d)
      else none
    | _, _, _ => none
  | _ => none

/-- Parsed-argument attributes the query handlers read; `none` models an
absent attribute as well as argparse None. -/
structure QueryArgs where
  last_days : Option Int := none
  segment : Option String := none
  entity : Option String := none
  group_by : Option String := none
  event_name : Option String := none
  from_date : Option String := none
  to_date : Option String := none
  country : Option String := none
deriving Repr

namespace QueryCommand

/-- Embedding of `QueryCommand._query_visitors`: a placeholder that logs the
parameters and a warning, makes no client call, and reports success. -/
def _query_visitors (args : QueryArgs) : HandlerRun :=
  let last_days := args.last_days.getD 30
  let logs0 : List LogLine :=
    [⟨.info, "Querying visitors from last " ++ toString last_days ++ " days..."⟩]
  let logs1 :=
    match args.segment with
    | some s => if s != "" then logs0 ++ [⟨.info, "Filtering by segment: " ++ s⟩] else logs0
    | none => logs0
  let out : HandlerOutput :=
    { success := true,
      logs := logs1 ++ [⟨.warning, "Visitor query not yet fully implemented"⟩], prints := [] }
  { calls := [], output := .ok out }

/-- Embedding of `QueryCommand._query_accounts`: a placeholder, as above. -/
def _query_accounts (args : QueryArgs) : HandlerRun :=
  let last_days := args.last_days.getD 30
  let out : HandlerOutput :=
    { success := true,
      logs := [⟨.info, "Querying accounts from last " ++ toString last_days ++ " days..."⟩,
               ⟨.warning, "Account query not yet fully implemented"⟩],
      prints := [] }
  { calls := [], output := .ok out }

/-- Embedding of `QueryCommand._query_activity`: a placeholder, as above. -/
def _query_activity (args : QueryArgs) : HandlerRun :=
  let entity := args.entity.getD "visitor"
  let logs0 : List LogLine := [⟨.info, "Querying activity for entity: " ++ entity⟩]
  let logs1 :=
    match args.group_by with
    | some g => if g != "" then logs0 ++ [⟨.info, "Grouping by: " ++ g⟩] else logs0
    | none => logs0
  let out : HandlerOutput :=
    { success := true,
      logs := logs1 ++ [⟨.warning, "Activity query not yet fully implemented"⟩], prints := [] }
  { calls := [], output := .ok out }

/-- Day count the wau query uses after clamping:
`max(1, min(getattr(self.args, "last_days", 7), 365))`. -/
def wauClampedDays (args : QueryArgs) : Int :=
  max 1 (min (args.last_days.getD 7) 365)

/-- Time-series dict of the wau pipeline: a trailing window counting back
`last_days` days from now. -/
def wauTimeSeries (last_days : Int) : Json :=
  .obj [("period", .str "dayRange"), ("first", .str "now()"), ("count", .num (-last_days))]

/-- Aggregation pipeline of `_query_wau`: track events in the window, tagged
and deduplicated by visitor id, then counted. -/
def wauPipeline (last_days : Int) : Json :=
  .arr [
    .obj [("source", .obj [("trackEvents", .obj []), ("timeSeries", wauTimeSeries last_days)])],
    .obj [("identified", .str "visitorId")],
    .obj [("select", .obj [("visitorId", .str "visitorId")])],
    .obj [("group", .obj [("group", .arr [.str "visitorId"]), ("fields", .obj [])])],
    .obj [("group", .obj [("group", .arr []),
                          ("fields", .obj [("wau", .obj [("count", .str "visitorId")])])])]]

/-- Aggregation request body of `_query_wau`. -/
def wauBody (last_days : Int) : Json :=
  .obj [("response", .obj [("mimeType", .str "application/json")]),
        ("request", .obj [("requestId", .str "wau"), ("pipeline", wauPipeline last_days)])]

/-- Result processing of `_query_wau` after the aggregation call: on envelope
errors log each one and fail; otherwise extract the `results` list of the
data payload (an empty or missing payload counts as no rows), then print the
`wau` field of the first row, or 0 when there are no rows. -/
def _query_wau_output (last_days : Int) (logs0 : List LogLine) (run : OpRun) :
    Except String HandlerOutput :=
  if !run.result.errors.isEmpty then
    .ok { success := false,
          logs := logs0 ++ run.result.errors.map (fun e => ⟨.error, pyStr e⟩), prints := [] }
  else
    let d := run.result.data.getD .null
    let data := if pyTruthy d then d else .obj []
    match pyGet data "results" (.arr []) with
    | .error e => .error e
    | .ok results =>
      if pyTruthy results then
        match pyGetItem0 results with
        | .error e => .error e
        | .ok firstRow =>
          match pyGet firstRow "wau" (.num 0) with
          | .error e => .error e
          | .ok wau =>
            .ok { success := true,
                  logs := logs0 ++ [⟨.info, "Unique active visitors (last "
                    ++ toString last_days ++ " days): " ++ pyStr wau⟩],
                  prints := [pyStr wau] }
      else
        .ok { success := true, logs := logs0 ++ [⟨.info, "No results"⟩], prints := ["0"] }

/-- Embedding of `QueryCommand._query_wau`: clamp the requested day count to
[1, 365], post the single aggregation request built from the clamped value,
then process the envelope with `_query_wau_output`. -/
def _query_wau (cfg : PendoConfig) (args : QueryArgs) (outcome : HttpOutcome) : HandlerRun :=
  let last_days := QueryCommand.wauClampedDays args
  let logs0 : List LogLine :=
    [⟨.info, "Querying unique active visitors (last " ++ toString last_days ++ " days)..."⟩]
  let run := PendoClient.post_aggregation cfg (wauBody last_days) outcome
  { calls := run.requests, output := _query_wau_output last_days logs0 run }

/-- Time-series dict built by `_query_events` from the two date bounds and
the current time `nowSec` (seconds on the ordinal axis). When both bounds
parse, `days_span = (end - start).days` and
`days_ago = (now - start).days` (timedelta days round toward minus
infinity); the window is relative to now when `days_ago > 0 and
days_span > 0`, and an explicit start date with a day count otherwise. When
either bound fails to parse, the except branch leaves `use_relative = False`
with `days_span = 365`, so the dict keeps the raw `from_date` with count
365. -/
def eventsTimeSeries (from_date to_date : String) (nowSec : Int) : Json :=
  match parseYMD from_date, parseYMD to_date with
  | some s, some e =>
    let days_span : Int := (e : Int) - (s : Int)
    let days_ago : Int := Int.fdiv (nowSec - (s : Int) * 86400) 86400
    if days_ago > 0 && days_span > 0 then
      .obj [("period", .str "dayRange"), ("first", .str "now()"), ("count", .num (-days_ago))]
    else
      .obj [("period", .str "dayRange"), ("first", .str from_date), ("count", .num days_span)]
  | _, _ =>
    .obj [("period", .str "dayRange"), ("first", .str from_date), ("count", .num 365)]

/-- Aggregation pipeline of `_query_events`. The optional country filter is
inserted at index 2 of the five base stages, which places it immediately
after the visitor-tagging stage. -/
def eventsPipeline (event_name : String) (country : Option String) (ts : Json) : Json :=
  let stage0 : Json := .obj [("source", .obj [("trackEvents", .obj []), ("timeSeries", ts)])]
  let stage1 : Json := .obj [("identified", .str "visitorId")]
  let nameFilter : Json := .obj [("filter", .str ("eventName==\"" ++ event_name ++ "\""))]
  let selectStage : Json :=
    .obj [("select", .obj [("numEvents", .str "numEvents"), ("visitorId", .str "visitorId"),
                           ("day", .str "day")])]
  let groupStage : Json :=
    .obj [("group", .obj [("group", .arr []),
                          ("fields", .obj [("totalEvents", .obj [("sum", .str "numEvents")])])])]
  let countryStages : List Json :=
    match country with
    | some c => if c != "" then [.obj [("filter", .str ("visitor.country==\"" ++ c ++ "\""))]] else []
    | none => []
  .arr ([stage0, stage1] ++ countryStages ++ [nameFilter, selectStage, groupStage])

/-- Aggregation request body of `_query_events`. -/
def eventsBody (event_name : String) (country : Option String) (ts : Json) : Json :=
  .obj [("response", .obj [("mimeType", .str "application/json")]),
        ("request", .obj [("requestId", .str "event-count"),
                          ("pipeline", eventsPipeline event_name country ts)])]

/-- Python `repr` of an optional string (None or a string), as interpolated
by `!r` in the events log line. -/
def pyReprOptStr : Option String → String
  | none => "None"
  | some s => pyReprStr s

/-- Embedding of `QueryCommand._query_events`: build the window from the date
bounds and the current time, post the aggregation, then print the
`totalEvents` field of the first result row (or 0 when there are no rows). -/
def _query_events (cfg : PendoConfig) (args : QueryArgs) (nowSec : Int)
    (outcome : HttpOutcome) : HandlerRun :=
  let event_name := args.event_name.getD "core-card-service POST /io/card"
  let from_date := args.from_date.getD "2025-01-01"
  let to_date := args.to_date.getD "2025-12-31"
  let country := args.country
  let logs0 : List LogLine :=
    [⟨.info, "Querying events: event=" ++ pyReprStr event_name ++ ", from=" ++ from_date
      ++ ", to=" ++ to_date ++ ", country=" ++ pyReprOptStr country⟩]
  let ts := eventsTimeSeries from_date to_date nowSec
  let run := PendoClient.post_aggregation cfg (eventsBody event_name country ts) outcome
  if !run.result.errors.isEmpty then
    let out : HandlerOutput :=
      { success := false,
        logs := logs0 ++ run.result.errors.map (fun e => ⟨.error, pyStr e⟩), prints := [] }
    { calls := run.requests, output := .ok out }
  else
    let d := run.result.data.getD .null
    let data := if pyTruthy d then d else .obj []
    match pyGet data "results" (.arr []) with
    | .error e => { calls := run.requests, output := .error e }
    | .ok results =>
      if pyTruthy results then
        match pyGetItem0 results with
        | .error e => { calls := run.requests, output := .error e }
        | .ok firstRow =>
          match pyGet firstRow "totalEvents" (.num 0) with
          | .error e => { calls := run.requests, output := .error e }
          | .ok total =>
            let out : HandlerOutput :=
              { success := true,
                logs := logs0 ++ [⟨.info, "Total events: " ++ pyStr total⟩],
                prints := [pyStr total] }
            { calls := run.requests, output := .ok out }
      else
        let out : HandlerOutput :=
          { success := true,
            logs := logs0 ++ [⟨.info, "No results (event name or filters may not match any data)"⟩],
            prints := ["0"] }
        { calls := run.requests, output := .ok out }

end QueryCommand

/-! Entry point exit-code mapping, from `pendo_cli/cli.py`. -/

/-- Exit code computed by `main` from the selected top-level command and the
boolean result of its handler: segment and query map success to 0 and failure
to 1; a missing command, the unimplemented export command, and unknown
commands all yield 1. -/
def mainExitCode (command : Option String) (handlerSuccess : Bool) : Int :=
  match command with
  | none => 1
  | some c =>
    if c = "segment" then (if handlerSuccess then 0 else 1)
    else if c = "query" then (if handlerSuccess then 0 else 1)
    else 1

/-- Outcome of `asyncio.run(main())` as observed by `entry_point`: a normal
return with an exit code, a KeyboardInterrupt, or any other exception. -/
inductive RunOutcome where
  | returns (code : Int)
  | keyboardInterrupt
  | raises (msg : String)
deriving Repr

/-- Embedding of `cli.entry_point`: pass through the returned code, map
interruption to 130 and any other exception to 1. -/
def entry_point : RunOutcome → Int
  | .returns code => code
  | .keyboardInterrupt => 130
  | .raises _ => 1

/-! Observation helpers used by the theorem statements. -/

/-- Field access on a dict value (`none` on other values or missing keys). -/
def Json.get? : Json → String → Option Json
  | .obj kvs, key => lookup? kvs key
  | _, _ => none

/-- Index access on a list value (`none` on other values or out of range). -/
def Json.idx? : Json → Nat → Option Json
  | .arr elts, i => elts.get? i
  | _, _ => none

/-- Count field of the time series inside an aggregation request body, read
through the path `request.pipeline[0].source.timeSeries.count`. -/
def timeSeriesCountOf (body : Json) : Option Json :=
  ((((body.get? "request").bind (Json.get? · "pipeline")).bind (Json.idx? · 0)).bind
      (Json.get? · "source")).bind (Json.get? · "timeSeries") |>.bind (Json.get? · "count")

/-- Envelope invariant of the client: a non-empty error list only ever
accompanies a null data field (stated as a disjunction: either the operation
reported no errors, or its data is None). -/
def envelopeOk (r : ResultEnv) : Prop :=
  r.errors = [] ∨ r.data = none

/-!
Claim theorems. Each theorem names the claim it settles and is stated over
the embedding above.
-/

/-- C1: for each of the five client operations and every outcome of its
single HTTP round trip (success, transport failure, parse failure of the
body, and for aggregation also the local missing-key failure), the returned
envelope has errors as a list by construction, and whenever that list is
non-empty the data field is None. The operations are total functions of the
outcome oracle, which is the envelope form of the guarantee that no
exception escapes the client. -/
theorem c1_envelope_errors_imply_null_data (cfg : PendoConfig) (sd pl body : Json)
    (sid : String) (outcome : HttpOutcome) :
    envelopeOk (PendoClient.list_segments cfg outcome).result ∧
    envelopeOk (PendoClient.create_segment cfg sd outcome).result ∧
    envelopeOk (PendoClient.update_segment cfg sid pl outcome).result ∧
    envelopeOk (PendoClient.delete_segment cfg sid outcome).result ∧
    envelopeOk (PendoClient.post_aggregation cfg body outcome).result := by
  have hreq : ∀ o : HttpOutcome, envelopeOk (PendoClient._request o) := by
    intro o
    cases o <;> simp [PendoClient._request, envelopeOk]
  refine ⟨hreq outcome, hreq outcome, hreq outcome, hreq outcome, ?_⟩
  unfold PendoClient.post_aggregation envelopeOk
  split
  · simp
  · cases outcome with
    | response status rb =>
      dsimp only
      split
      · split <;> simp
      · simp
    | clientError e => simp
    | unexpectedError e => simp

/-- C3: with no API key in the configuration, the aggregation operation
fails locally — the run issues no HTTP request and returns the fixed
missing-key envelope. -/
theorem c3_aggregation_requires_api_key (cfg : PendoConfig) (body : Json)
    (outcome : HttpOutcome) (h : cfg.api_key = none) :
    PendoClient.post_aggregation cfg body outcome
      = { requests := [],
          result := { data := none,
                      errors := [.str "PENDO_API_KEY required for aggregation"] } } := by
  unfold PendoClient.post_aggregation
  rw [h]
  rfl

/-- Witness for C3 at a concrete keyless configuration and outcome. -/
theorem c3_aggregation_requires_api_key_witness :
    PendoClient.post_aggregation { subscription_id := "s", app_id := "a" } (Json.obj [])
        (.clientError "boom")
      = { requests := [],
          result := { data := none,
                      errors := [.str "PENDO_API_KEY required for aggregation"] } } :=
  c3_aggregation_requires_api_key { subscription_id := "s", app_id := "a" } (Json.obj [])
    (.clientError "boom") rfl

/-- C5: the update payload holds exactly the supplied truthy fields among
name and description: with only a description supplied the payload is the
single description pair (no name key at all); in general the key list is the
truthy-field list and each supplied truthy field keeps its value; when the
segment id is truthy the handler passes exactly this payload to the client
update operation. -/
theorem c5_update_payload_contains_only_supplied_fields (cfg : PendoConfig)
    (args : SegmentArgs) (outcome : HttpOutcome) :
    (∀ d, pyTruthyStr args.name = false → args.description = some d → d ≠ "" →
      SegmentCommand._update_segment_payload args = [("description", Json.str d)]) ∧
    ((SegmentCommand._update_segment_payload args).map Prod.fst
      = (if pyTruthyStr args.name then ["name"] else [])
        ++ (if pyTruthyStr args.description then ["description"] else [])) ∧
    (∀ n, args.name = some n → n ≠ "" →
      lookup? (SegmentCommand._update_segment_payload args) "name" = some (.str n)) ∧
    (∀ d, args.description = some d → d ≠ "" →
      lookup? (SegmentCommand._update_segment_payload args) "description" = some (.str d)) ∧
    (pyTruthyStr args.segment_id = true →
      (SegmentCommand._update_segment cfg args outcome).calls
        = (PendoClient.update_segment cfg (args.segment_id.getD "")
            (.obj (SegmentCommand._update_segment_payload args)) outcome).requests) := by
  obtain ⟨sid, name, desc⟩ := args
  refine ⟨?_, ?_, ?_, ?_, ?_⟩
  · intro d hn hd hne
    cases hd
    cases hname : name with
    | none =>
      simp [SegmentCommand._update_segment_payload, hne]
    | some n =>
      subst hname
      simp [pyTruthyStr] at hn
      simp [SegmentCommand._update_segment_payload, hn, hne]
  · cases name with
    | none =>
      cases desc with
      | none => simp [SegmentCommand._update_segment_payload, pyTruthyStr]
      | some d =>
        by_cases hd : d = "" <;>
          simp [SegmentCommand._update_segment_payload, pyTruthyStr, hd]
    | some n =>
      cases desc with
      | none =>
        by_cases hn : n = "" <;>
          simp [SegmentCommand._update_segment_payload, pyTruthyStr, hn]
      | some d =>
        by_cases hn : n = "" <;> by_cases hd : d = "" <;>
          simp [SegmentCommand._update_segment_payload, pyTruthyStr, hn, hd]
  · intro n hn hne
    cases hn
    cases desc with
    | none => simp [SegmentCommand._update_segment_payload, hne, lookup?]
    | some d =>
      by_cases hd : d = "" <;>
        simp [SegmentCommand._update_segment_payload, hne, hd, lookup?]
  · intro d hd hne
    cases hd
    cases name with
    | none => simp [SegmentCommand._update_segment_payload, hne, lookup?]
    | some n =>
      by_cases hn : n = "" <;>
        simp [SegmentCommand._update_segment_payload, hne, hn, lookup?]
  · intro h
    unfold SegmentCommand._update_segment
    rw [h]
    simp only [Bool.not_true, Bool.false_eq_true, if_false]
    split <;> rfl

/-- Witness for C5: only a description supplied yields the single-key
payload. -/
theorem c5_update_payload_contains_only_supplied_fields_witness :
    SegmentCommand._update_segment_payload
        { segment_id := some "seg-1", name := none, description := some "New description" }
      = [("description", Json.str "New description")] :=
  (c5_update_payload_contains_only_supplied_fields { subscription_id := "s", app_id := "a" }
      { segment_id := some "seg-1", name := none, description := some "New description" }
      (.clientError "x")).1
    "New description" rfl rfl (by decide)

/-- C6: when the segment id attribute is absent or falsy, the update and
delete handlers return failure having issued no client call at all. -/
theorem c6_update_delete_without_id_make_no_calls (cfg : PendoConfig) (args : SegmentArgs)
    (outcome : HttpOutcome) (h : pyTruthyStr args.segment_id = false) :
    SegmentCommand._update_segment cfg args outcome
      = { calls := [],
          output := .ok { success := false,
                          logs := [⟨.error, "segment_id is required for update"⟩],
                          prints := [] } } ∧
    SegmentCommand._delete_segment cfg args outcome
      = { calls := [],
          output := .ok { success := false,
                          logs := [⟨.error, "segment_id is required for delete"⟩],
                          prints := [] } } := by
  constructor
  · unfold SegmentCommand._update_segment
    rw [h]
    rfl
  · unfold SegmentCommand._delete_segment
    rw [h]
    rfl

/-- Witness for C6 at a concrete argument record with no segment id. -/
theorem c6_update_delete_without_id_make_no_calls_witness :
    SegmentCommand._update_segment { subscription_id := "s", app_id := "a" }
        { segment_id := none, name := some "X" } (.clientError "x")
      = { calls := [],
          output := .ok { success := false,
                          logs := [⟨.error, "segment_id is required for update"⟩],
                          prints := [] } } :=
  (c6_update_delete_without_id_make_no_calls { subscription_id := "s", app_id := "a" }
    { segment_id := none, name := some "X" } (.clientError "x") rfl).1

/-- C7: the wau query clamps the requested day count into [1, 365] before
building the pipeline — 500 maps to 365, anything below 1 maps to 1, a
missing attribute defaults to 7, values already in range pass through — the
handler posts the aggregation body built from exactly the clamped value, and
that body's timeSeries count is the negation of the clamped value. -/
theorem c7_wau_clamps_last_days (cfg : PendoConfig) (args : QueryArgs) (outcome : HttpOutcome) :
    (QueryCommand._query_wau cfg args outcome).calls
      = (PendoClient.post_aggregation cfg (QueryCommand.wauBody (QueryCommand.wauClampedDays args))
          outcome).requests ∧
    1 ≤ QueryCommand.wauClampedDays args ∧ QueryCommand.wauClampedDays args ≤ 365 ∧
    (args.last_days = some 500 → QueryCommand.wauClampedDays args = 365) ∧
    (∀ n, args.last_days = some n → n < 1 → QueryCommand.wauClampedDays args = 1) ∧
    (∀ n, args.last_days = some n → 1 ≤ n → n ≤ 365 → QueryCommand.wauClampedDays args = n) ∧
    (args.last_days = none → QueryCommand.wauClampedDays args = 7) ∧
    timeSeriesCountOf (QueryCommand.wauBody (QueryCommand.wauClampedDays args))
      = some (.num (-(QueryCommand.wauClampedDays args))) := by
  refine ⟨?_, ?_, ?_, ?_, ?_, ?_, ?_, ?_⟩
  · unfold QueryCommand._query_wau
    repeat first | rfl | split
  · unfold QueryCommand.wauClampedDays
    omega
  · unfold QueryCommand.wauClampedDays
    omega
  · intro h
    unfold QueryCommand.wauClampedDays
    rw [h]
    rfl
  · intro n h hlt
    unfold QueryCommand.wauClampedDays
    rw [h]
    simp only [Option.getD_some]
    omega
  · intro n h h1 h365
    unfold QueryCommand.wauClampedDays
    rw [h]
    simp only [Option.getD_some]
    omega
  · intro h
    unfold QueryCommand.wauClampedDays
    rw [h]
    rfl
  · rfl

/-- Witness for C7 at last_days = 500 (clamped to 365). -/
theorem c7_wau_clamps_last_days_witness :
    QueryCommand.wauClampedDays { last_days := some 500 } = 365 :=
  (c7_wau_clamps_last_days { subscription_id := "s", app_id := "a" }
      { last_days := some 500 } (.clientError "x")).2.2.2.1 rfl

/-- C9: the visitors, accounts and activity query handlers issue no
aggregation request, log a warning that the query is not yet (fully)
implemented, and report success; the entry point maps handler success to
exit code 0, handler failure to 1, and interruption to 130. -/
theorem c9_unimplemented_queries_report_success (args : QueryArgs) :
    (QueryCommand._query_visitors args).calls = [] ∧
    (QueryCommand._query_visitors args).succeeded = true ∧
    (QueryCommand._query_visitors args).warningMsgs
      = ["Visitor query not yet fully implemented"] ∧
    (QueryCommand._query_accounts args).calls = [] ∧
    (QueryCommand._query_accounts args).succeeded = true ∧
    (QueryCommand._query_accounts args).warningMsgs
      = ["Account query not yet fully implemented"] ∧
    (QueryCommand._query_activity args).calls = [] ∧
    (QueryCommand._query_activity args).succeeded = true ∧
    (QueryCommand._query_activity args).warningMsgs
      = ["Activity query not yet fully implemented"] ∧
    mainExitCode (some "query") true = 0 ∧
    mainExitCode (some "query") false = 1 ∧
    mainExitCode (some "segment") true = 0 ∧
    mainExitCode (some "segment") false = 1 ∧
    entry_point (.returns (mainExitCode (some "query") true)) = 0 ∧
    entry_point .keyboardInterrupt = 130 := by
  refine ⟨rfl, rfl, ?_, rfl, rfl, rfl, rfl, rfl, ?_, rfl, rfl, rfl, rfl, rfl, rfl⟩
  · unfold QueryCommand._query_visitors HandlerRun.warningMsgs
    cases args.segment with
    | none => rfl
    | some s =>
      rcases eq_or_ne s "" with hs | hs
      · subst hs
        rfl
      · have hb : (s != "") = true := by simpa using hs
        simp only [hb]
        rfl
  · unfold QueryCommand._query_activity HandlerRun.warningMsgs
    cases args.group_by with
    | none => rfl
    | some g =>
      rcases eq_or_ne g "" with hg | hg
      · subst hg
        rfl
      · have hb : (g != "") = true := by simpa using hg
        simp only [hb]
        rfl

/-- C8: segment list rendering. On an error-free envelope a dict payload is
unwrapped to its nested results list (a bare list is used directly); each
item prints as id, colon-space, name, with missing id and name rendered as
the literals unknown and unnamed; the concrete results payload with id 1 and
name A prints exactly the line "1: A" with success reported. -/
theorem c8_list_segments_rendering (cfg : PendoConfig) (outcome : HttpOutcome) :
    ((PendoClient.list_segments cfg outcome).result.errors ≠ [] →
      (SegmentCommand._list_segments cfg outcome).output
        = .ok { success := false,
                logs := [⟨.error, "Failed to list segments: "
                           ++ pyStr (.arr (PendoClient.list_segments cfg outcome).result.errors)⟩],
                prints := [] }) ∧
    (∀ kvs rows lines, (PendoClient.list_segments cfg outcome).result.errors = [] →
      (PendoClient.list_segments cfg outcome).result.data = some (.obj kvs) →
      lookupD kvs "results" (.arr []) = .arr rows →
      rows.mapM SegmentCommand.segmentLine = .ok lines →
      (SegmentCommand._list_segments cfg outcome).output
        = .ok { success := true, logs := [], prints := lines }) ∧
    (∀ rows lines, (PendoClient.list_segments cfg outcome).result.errors = [] →
      (PendoClient.list_segments cfg outcome).result.data = some (.arr rows) →
      rows.mapM SegmentCommand.segmentLine = .ok lines →
      (SegmentCommand._list_segments cfg outcome).output
        = .ok { success := true, logs := [], prints := lines }) ∧
    (∀ ikvs i n, lookup? ikvs "id" = some (.str i) → lookup? ikvs "name" = some (.str n) →
      SegmentCommand.segmentLine (.obj ikvs) = .ok (i ++ ": " ++ n)) ∧
    (∀ ikvs, lookup? ikvs "id" = none → lookup? ikvs "name" = none →
      SegmentCommand.segmentLine (.obj ikvs) = .ok "unknown: unnamed") ∧
    ((SegmentCommand._list_segments cfg
        (.response 200 (.json (.obj
          [("results", .arr [.obj [("id", .str "1"), ("name", .str "A")]])])))).output
      = .ok { success := true, logs := [], prints := ["1: A"] }) ∧
    (SegmentCommand._list_segments cfg
        (.response 200 (.json (.obj
          [("results", .arr [.obj [("id", .str "1"), ("name", .str "A")]])])))).succeeded
      = true := by
  refine ⟨?_, ?_, ?_, ?_, ?_, rfl, rfl⟩
  · intro h
    cases herr : (PendoClient.list_segments cfg outcome).result.errors with
    | nil => exact absurd herr h
    | cons a t =>
      unfold SegmentCommand._list_segments
      simp only [herr]
      rfl
  · intro kvs rows lines herr hdata hres hmap
    unfold SegmentCommand._list_segments
    simp only [herr, hdata, Option.getD_some, hres, List.isEmpty_nil, Bool.not_true]
    unfold SegmentCommand.segmentsLines
    simp only [hmap]
    rfl
  · intro rows lines herr hdata hmap
    unfold SegmentCommand._list_segments
    simp only [herr, hdata, Option.getD_some, List.isEmpty_nil, Bool.not_true]
    unfold SegmentCommand.segmentsLines
    simp only [hmap]
    rfl
  · intro ikvs i n h1 h2
    unfold SegmentCommand.segmentLine lookupD
    dsimp only
    rw [h1, h2]
    rfl
  · intro ikvs h1 h2
    unfold SegmentCommand.segmentLine lookupD
    dsimp only
    rw [h1, h2]
    rfl

/-- Witness for C8: the dict-unwrap conjunct applied at the concrete payload
of the claim. -/
theorem c8_list_segments_rendering_witness :
    (SegmentCommand._list_segments { subscription_id := "s", app_id := "a" }
        (.response 200 (.json (.obj
          [("results", .arr [.obj [("id", .str "1"), ("name", .str "A")]])])))).output
      = .ok { success := true, logs := [], prints := ["1: A"] } :=
  (c8_list_segments_rendering { subscription_id := "s", app_id := "a" }
      (.response 200 (.json (.obj
        [("results", .arr [.obj [("id", .str "1"), ("name", .str "A")]])])))).2.1
    [("results", .arr [.obj [("id", .str "1"), ("name", .str "A")]])]
    [.obj [("id", .str "1"), ("name", .str "A")]] ["1: A"] rfl rfl rfl rfl

/-- C10: `get_config` strips and lowercases the resolved subscription name
before validating it: a name whose normalization is one of the supported
names yields the same configuration as the canonical name itself, and the
unknown-subscription error (whose message joins the allowed names) is raised
exactly for names whose normalization is outside the supported set. -/
theorem c10_subscription_name_normalization (sub : Option String) (env : Env) :
    (resolveSubscriptionName sub env ∈ SUBSCRIPTION_NAMES →
      get_config sub env = get_config (some (resolveSubscriptionName sub env)) env) ∧
    (resolveSubscriptionName sub env ∉ SUBSCRIPTION_NAMES →
      get_config sub env = .error (.unknownSubscription (resolveSubscriptionName sub env))) ∧
    (resolveSubscriptionName sub env ∈ SUBSCRIPTION_NAMES →
      ∀ m, get_config sub env ≠ .error (.unknownSubscription m)) ∧
    ((PyError.unknownSubscription (resolveSubscriptionName sub env)).message
      = "Unknown subscription " ++ pyReprStr (resolveSubscriptionName sub env)
          ++ ". Use one of: " ++ String.intercalate ", " SUBSCRIPTION_NAMES) ∧
    (String.intercalate ", " SUBSCRIPTION_NAMES = "default, roadmaps, portfolios") := by
  have hidem : ∀ m, m ∈ SUBSCRIPTION_NAMES → resolveSubscriptionName (some m) env = m := by
    intro m hm
    simp only [SUBSCRIPTION_NAMES, List.mem_cons, List.mem_singleton,
      List.not_mem_nil, or_false] at hm
    rcases hm with h | h | h <;> subst h <;> rfl
  have hshape : ∀ s e, pyParseInt s = .error e → ∃ l, e = PyError.invalidIntLiteral l := by
    intro s e hp
    unfold pyParseInt at hp
    split at hp
    · exact absurd hp (by simp)
    · simp only [Except.error.injEq] at hp
      exact ⟨s, hp.symm⟩
  refine ⟨?_, ?_, ?_, rfl, by decide⟩
  · intro h
    unfold get_config
    rw [hidem _ h]
  · intro h
    unfold get_config
    rw [if_pos h]
  · intro h m
    unfold get_config
    rw [if_neg (by simpa using h)]
    cases hp1 : pyParseInt (getenv env "PENDO_TIMEOUT" "30") with
    | error e =>
      obtain ⟨l, hl⟩ := hshape _ _ hp1
      subst hl
      simp [hp1]
    | ok v1 =>
      cases hp2 : pyParseInt (getenv env "PENDO_MAX_RETRIES" "3") with
      | error e =>
        obtain ⟨l, hl⟩ := hshape _ _ hp2
        subst hl
        simp [hp1, hp2]
      | ok v2 =>
        simp only [hp1, hp2]
        split
        · simp
        · split <;> simp

/-- Witness for C10: a padded upper-case name resolves like the canonical
name. -/
theorem c10_subscription_name_normalization_witness :
    get_config (some " DEFAULT ") [] = get_config (some "default") [] := by
  have h := (c10_subscription_name_normalization (some " DEFAULT ") []).1 (by decide)
  simpa using h

/-- C2 counterexample: with an unparsable from_date the code builds the
explicit-start-date window carrying the raw string and count 365, not the
relative 365-day window the claim states (first is the raw from_date, not
now(), and the count is positive 365, not -365). -/
theorem c2_date_parse_fallback_counterexample :
    parseYMD "not-a-date" = none ∧
    QueryCommand.eventsTimeSeries "not-a-date" "2025-12-31" 0
      = .obj [("period", .str "dayRange"), ("first", .str "not-a-date"), ("count", .num 365)] ∧
    QueryCommand.eventsTimeSeries "not-a-date" "2025-12-31" 0
      ≠ .obj [("period", .str "dayRange"), ("first", .str "now()"), ("count", .num (-365))] := by
  refine ⟨rfl, rfl, ?_⟩
  have he : QueryCommand.eventsTimeSeries "not-a-date" "2025-12-31" 0
      = .obj [("period", .str "dayRange"), ("first", .str "not-a-date"), ("count", .num 365)] :=
    rfl
  rw [he]
  simp

/-- C2 (amended): when both date bounds parse (ordinals s and e, counting
time in seconds on the same axis so the parsed start sits at s * 86400),
the window is relative to now — first now(), count the negated floor day
count from start to now — exactly when that day count and the span e - s
are both positive; otherwise it is the explicit start date with the span as
count, and a from_date strictly in the future always takes the explicit
shape. A positive floor day count is equivalent to the start date lying
strictly before the current date. When either bound fails to parse, the
fallback is the explicit shape carrying the raw from_date with count 365
(the original claim instead said a relative 365-day window; the except
branch sets use_relative to False, so the relative shape is impossible
there). -/
theorem c2_events_window_selection (fromD toD : String) (nowSec : Int) :
    (∀ s e, parseYMD fromD = some s → parseYMD toD = some e →
      0 < Int.fdiv (nowSec - (s : Int) * 86400) 86400 → 0 < (e : Int) - (s : Int) →
      QueryCommand.eventsTimeSeries fromD toD nowSec
        = .obj [("period", .str "dayRange"), ("first", .str "now()"),
                ("count", .num (-(Int.fdiv (nowSec - (s : Int) * 86400) 86400)))]) ∧
    (∀ s e, parseYMD fromD = some s → parseYMD toD = some e →
      ¬(0 < Int.fdiv (nowSec - (s : Int) * 86400) 86400 ∧ 0 < (e : Int) - (s : Int)) →
      QueryCommand.eventsTimeSeries fromD toD nowSec
        = .obj [("period", .str "dayRange"), ("first", .str fromD),
                ("count", .num ((e : Int) - (s : Int)))]) ∧
    (∀ s e, parseYMD fromD = some s → parseYMD toD = some e →
      nowSec < (s : Int) * 86400 →
      QueryCommand.eventsTimeSeries fromD toD nowSec
        = .obj [("period", .str "dayRange"), ("first", .str fromD),
                ("count", .num ((e : Int) - (s : Int)))]) ∧
    (∀ s, parseYMD fromD = some s →
      ((s : Int) * 86400 + 86400 ≤ nowSec
        ↔ 0 < Int.fdiv (nowSec - (s : Int) * 86400) 86400)) ∧
    ((parseYMD fromD = none ∨ parseYMD toD = none) →
      QueryCommand.eventsTimeSeries fromD toD nowSec
        = .obj [("period", .str "dayRange"), ("first", .str fromD), ("count", .num 365)]) := by
  have hexp : ∀ s e, parseYMD fromD = some s → parseYMD toD = some e →
      ¬(0 < Int.fdiv (nowSec - (s : Int) * 86400) 86400 ∧ 0 < (e : Int) - (s : Int)) →
      QueryCommand.eventsTimeSeries fromD toD nowSec
        = .obj [("period", .str "dayRange"), ("first", .str fromD),
                ("count", .num ((e : Int) - (s : Int)))] := by
    intro s e hf ht hn
    unfold QueryCommand.eventsTimeSeries
    rw [hf, ht]
    dsimp only
    rw [if_neg (by simpa [Bool.and_eq_true, decide_eq_true_eq] using hn)]
  refine ⟨?_, hexp, ?_, ?_, ?_⟩
  · intro s e hf ht h1 h2
    unfold QueryCommand.eventsTimeSeries
    rw [hf, ht]
    dsimp only
    rw [if_pos (by simp [Bool.and_eq_true, decide_eq_true_eq, h1, h2])]
  · intro s e hf ht hfut
    refine hexp s e hf ht ?_
    rintro ⟨h1, -⟩
    have hle : Int.fdiv (nowSec - (s : Int) * 86400) 86400 ≤ 0 := by
      rw [Int.fdiv_eq_ediv _ (by norm_num)]
      omega
    omega
  · intro s _
    rw [Int.fdiv_eq_ediv _ (by norm_num)]
    omega
  · intro h
    rcases h with h | h
    · unfold QueryCommand.eventsTimeSeries
      rw [h]
    · unfold QueryCommand.eventsTimeSeries
      cases hf : parseYMD fromD with
      | none => rfl
      | some s => rw [h]

/-- Witness for C2 at concrete inputs: start 2025-01-01 (ordinal 739252),
now at the first moment of 2025-01-02, giving the relative window with
count -1. -/
theorem c2_events_window_selection_witness :
    QueryCommand.eventsTimeSeries "2025-01-01" "2025-12-31" (739253 * 86400)
      = .obj [("period", .str "dayRange"), ("first", .str "now()"),
              ("count", .num (-1))] := by
  have h := (c2_events_window_selection "2025-01-01" "2025-12-31" (739253 * 86400)).1
    739252 739616 rfl rfl (by decide) (by decide)
  have hv : -(Int.fdiv ((739253 * 86400 : Int) - ((739252 : Nat) : Int) * 86400) 86400)
      = (-1 : Int) := by decide
  rw [h, hv]

/-- C4 counterexample: a 302 response — non-2xx — is not treated as an error
by the aggregation operation: the parsed body is returned as data with an
empty error list, contradicting the claim for non-2xx statuses below 400. -/
theorem c4_non2xx_counterexample :
    (PendoClient.post_aggregation
        { subscription_id := "s", app_id := "a", api_key := some "k" }
        (Json.obj []) (.response 302 (.json (.obj [("message", .str "redirect")])))).result
      = { data := some (.obj [("message", .str "redirect")]), errors := [] } ∧
    ¬(200 ≤ 302 ∧ 302 < 300) :=
  ⟨rfl, by decide⟩

/-- C4 (amended): the aggregation operation treats exactly the statuses of
400 and above as application-level errors (a non-2xx status below 400 is
returned as plain success, per the counterexample). For status ≥ 400 the
data is None and errors holds exactly one message, chosen as the dict
body's message field, else its text field (which is where the text-wrapped
raw body lands), else the Python str of the dict; when the normalized body
is not a dict the extraction raises and the caught AttributeError text is
the single message. The raw body is never surfaced as data on these
statuses, and the other four operations return every status as data with no
errors. -/
theorem c4_aggregation_error_statuses (cfg : PendoConfig) (body sd pl : Json)
    (sid : String) (status : Nat) (rb : RespBody)
    (hkey : pyTruthyStr cfg.api_key = true) :
    (400 ≤ status →
      (PendoClient.post_aggregation cfg body (.response status rb)).result.data = none ∧
      ∃ m, (PendoClient.post_aggregation cfg body (.response status rb)).result.errors = [m]) ∧
    (∀ kvs v, 400 ≤ status → PendoClient.normalizeBody rb = .obj kvs →
      lookup? kvs "message" = some v →
      (PendoClient.post_aggregation cfg body (.response status rb)).result.errors = [v]) ∧
    (∀ kvs v, 400 ≤ status → PendoClient.normalizeBody rb = .obj kvs →
      lookup? kvs "message" = none → lookup? kvs "text" = some v →
      (PendoClient.post_aggregation cfg body (.response status rb)).result.errors = [v]) ∧
    (∀ kvs, 400 ≤ status → PendoClient.normalizeBody rb = .obj kvs →
      lookup? kvs "message" = none → lookup? kvs "text" = none →
      (PendoClient.post_aggregation cfg body (.response status rb)).result.errors
        = [.str (pyStr (.obj kvs))]) ∧
    (400 ≤ status → (∀ kvs, PendoClient.normalizeBody rb ≠ .obj kvs) →
      (PendoClient.post_aggregation cfg body (.response status rb)).result.errors
        = [.str (noGetAttrMsg (PendoClient.normalizeBody rb))]) ∧
    (status < 400 →
      (PendoClient.post_aggregation cfg body (.response status rb)).result
        = { data := some (PendoClient.normalizeBody rb), errors := [] }) ∧
    ((PendoClient.list_segments cfg (.response status rb)).result
        = { data := some (PendoClient.normalizeBody rb), errors := [] }) ∧
    ((PendoClient.create_segment cfg sd (.response status rb)).result
        = { data := some (PendoClient.normalizeBody rb), errors := [] }) ∧
    ((PendoClient.update_segment cfg sid pl (.response status rb)).result
        = { data := some (PendoClient.normalizeBody rb), errors := [] }) ∧
    ((PendoClient.delete_segment cfg sid (.response status rb)).result
        = { data := some (PendoClient.normalizeBody rb), errors := [] }) := by
  refine ⟨?_, ?_, ?_, ?_, ?_, ?_, rfl, rfl, rfl, rfl⟩
  · intro hs
    unfold PendoClient.post_aggregation
    simp only [hkey, Bool.not_true]
    rw [if_neg (by simp)]
    rw [if_pos hs]
    cases hd : PendoClient.normalizeBody rb <;> simp
  · intro kvs v hs hd hmsg
    unfold PendoClient.post_aggregation
    simp only [hkey, Bool.not_true]
    rw [if_neg (by simp)]
    rw [if_pos hs, hd]
    dsimp only
    unfold lookupD
    rw [hmsg]
  · intro kvs v hs hd hmsg htext
    unfold PendoClient.post_aggregation
    simp only [hkey, Bool.not_true]
    rw [if_neg (by simp)]
    rw [if_pos hs, hd]
    dsimp only
    unfold lookupD
    rw [hmsg, htext]
  · intro kvs hs hd hmsg htext
    unfold PendoClient.post_aggregation
    simp only [hkey, Bool.not_true]
    rw [if_neg (by simp)]
    rw [if_pos hs, hd]
    dsimp only
    unfold lookupD
    rw [hmsg, htext]
  · intro hs hnobj
    unfold PendoClient.post_aggregation
    simp only [hkey, Bool.not_true]
    rw [if_neg (by simp)]
    rw [if_pos hs]
  · intro hs
    unfold PendoClient.post_aggregation
    simp only [hkey, Bool.not_true]
    rw [if_neg (by simp)]
    rw [if_neg (by omega)]

/-- Witness for C4 at a concrete 404 with a non-JSON body: the text-wrapped
raw body surfaces as the single error. -/
theorem c4_aggregation_error_statuses_witness :
    (PendoClient.post_aggregation
        { subscription_id := "s", app_id := "a", api_key := some "k" }
        (Json.obj []) (.response 404 (.raw "oops"))).result.errors = [.str "oops"] :=
  (c4_aggregation_error_statuses { subscription_id := "s", app_id := "a", api_key := some "k" }
      (Json.obj []) (Json.obj []) (Json.obj []) "x" 404 (.raw "oops") rfl).2.2.1
    [("text", .str "oops")] (.str "oops") (by norm_num) rfl rfl rfl

end PendoCLI
